import Mathlib

/-!
Shallow embedding of the scoring core of the Resume Relevance Check System
(`app/core/scoring_engine.py`, `app/core/llm_handler.py`, `app/config.py`,
`app/core/resume_processor.py`).

Python floats are modelled as exact rationals (`ℚ`), strings as Lean
`String` (a packed `List Char`), and Python dicts as structures whose
optional keys are `Option` fields.  External collaborators (the fuzzy
string-similarity library, the embedding service, the language model and
the standard JSON parser) are parameters of the functions that call them,
exactly at the call boundary the source uses.
-/

namespace ResumeRelevance

/-! ## Text helpers (embeddings of the Python string operations used) -/

/-- Lower-casing of a string, `str.lower()` (ASCII letters; the data the
scoring core compares are ASCII skill names and section labels). -/
def strLower (s : String) : String := ⟨s.toList.map Char.toLower⟩

/-- Does `hay` start with `needle`? (helper for substring search). -/
def startsWithL : List Char → List Char → Bool
  | [], _ => true
  | _ :: _, [] => false
  | a :: as, b :: bs => a == b && startsWithL as bs

/-- `needle in hay` for Python strings: contiguous-substring containment
(the empty needle is contained in everything). -/
def substrIn (n : List Char) : List Char → Bool
  | [] => startsWithL n []
  | c :: t => startsWithL n (c :: t) || substrIn n t

/-- `needle in hay` on packed strings. -/
def strContains (hay needle : String) : Bool := substrIn needle.toList hay.toList

/-- Numeric value of a decimal digit character. -/
def digitVal (c : Char) : Nat := c.toNat - 48

/-- Consume a maximal run of decimal digits, extending the accumulator
(`re` matches maximal `\d+` runs left to right). -/
def readDigits : List Char → Nat → Nat
  | c :: t, acc => if c.isDigit then readDigits t (acc * 10 + digitVal c) else acc
  | [], acc => acc

/-- The value of the first maximal digit run of the text:
`re.findall(r'\d+', text)[0]` converted with `int`, or `none` when the
text holds no digit. -/
def firstNumber : List Char → Option Nat
  | [] => none
  | c :: t => if c.isDigit then some (readDigits t (digitVal c)) else firstNumber t

/-- Non-overlapping left-to-right matches of `20\d{2}` as year values:
the scan of `re.findall(r'20\d{2}', text)`, advancing one character on a
failed match and four on a successful one. -/
def findYears : List Char → List Nat
  | [] => []
  | [_] => []
  | [_, _] => []
  | [_, _, _] => []
  | c0 :: c1 :: c2 :: c3 :: t =>
    if c0 = '2' ∧ c1 = '0' ∧ c2.isDigit ∧ c3.isDigit then
      (2000 + 10 * digitVal c2 + digitVal c3) :: findYears t
    else findYears (c1 :: c2 :: c3 :: t)

/-! ## Configuration (`app/config.py`) -/

/-- The scoring weights and verdict thresholds of `Config`; the field
defaults are the constants of `app/config.py`.  The Streamlit settings
page can mutate them at run time, so the engine is parameterized by a
`Config` value. -/
structure Config where
  HARD_MATCH_WEIGHT : ℚ := 2/5
  SEMANTIC_MATCH_WEIGHT : ℚ := 2/5
  EXPERIENCE_WEIGHT : ℚ := 1/5
  HIGH_RELEVANCE_THRESHOLD : ℚ := 75
  MEDIUM_RELEVANCE_THRESHOLD : ℚ := 50
  deriving Repr

/-! ## Structured data (§6 input records) -/

/-- One entry of the resume's experience list: the parser supplies a dict
with a `description` string. -/
structure ExperienceEntry where
  description : String
  deriving Repr, DecidableEq

/-- The structured resume data consumed by the scoring engine.  `fullText`
carries `' '.join(str(v) for v in resume_data.values() if v)` — the
rendering of the whole dict that `calculate_hard_match_score` lowers and
searches for substring matches; the rendering itself happens outside the
scoring logic, so it enters the embedding as a field. -/
structure ResumeData where
  skills : List String
  experience : List ExperienceEntry
  fullText : String
  deriving Repr

/-- The structured job-description data consumed by the scoring engine.
`experience_required` uses the parser's sentinel string
`"Not specified"` when absent, as the source compares it literally. -/
structure JdData where
  required_skills : List String
  preferred_skills : List String
  experience_required : String
  deriving Repr

/-! ## `ScoringEngine.calculate_hard_match_score` -/

/-- The credit one target skill earns against the resume, the tiered
match of the source: exact lower-cased membership in the resume skill
set → 1; otherwise a fuzzy similarity above 85 against any resume
skill → 0.8; otherwise substring occurrence in the full resume
text → 0.6; otherwise 0.  `fuzz` is the external `fuzz.ratio`
collaborator. -/
def skillCredit (fuzz : String → String → ℚ) (resumeSkills : List String)
    (resumeText : String) (skill : String) : ℚ :=
  let sl := strLower skill
  if resumeSkills.contains sl then 1
  else if resumeSkills.any (fun rs => decide (fuzz sl rs > 85)) then 4/5
  else if strContains resumeText sl then 3/5
  else 0

/-- `ScoringEngine.calculate_hard_match_score`: required skills are worth
up to 60 points and preferred skills up to 40, each block scaled by the
average credit of its skills; when neither list is present the score
defaults to 50. -/
def calculate_hard_match_score (fuzz : String → String → ℚ)
    (resume_data : ResumeData) (jd_data : JdData) : ℚ :=
  let resume_skills := resume_data.skills.map strLower
  let resume_text := strLower resume_data.fullText
  let required := jd_data.required_skills
  let preferred := jd_data.preferred_skills
  let reqScore : ℚ :=
    if required ≠ [] then
      ((required.map (skillCredit fuzz resume_skills resume_text)).sum
        / required.length) * 60
    else 0
  let prefScore : ℚ :=
    if preferred ≠ [] then
      ((preferred.map (skillCredit fuzz resume_skills resume_text)).sum
        / preferred.length) * 40
    else 0
  let total_requirements : ℚ :=
    (if required ≠ [] then 60 else 0) + (if preferred ≠ [] then 40 else 0)
  if total_requirements > 0 then reqScore + prefScore else 50

/-! ## `ScoringEngine.extract_years_of_experience` and experience score -/

/-- The year span one experience entry contributes: when its description
holds at least two `20\d{2}` tokens, the absolute difference between the
last and the first; otherwise 0. -/
def entrySpan (description : String) : Nat :=
  match findYears description.toList with
  | [] => 0
  | [_] => 0
  | a :: b :: t => (((b :: t).getLastD b : Int) - (a : Int)).natAbs

/-- `ScoringEngine.extract_years_of_experience`: an empty experience list
gives 0; otherwise the spans of the entries are summed, and when that sum
is 0 the estimate falls back to two years per listed position. -/
def extract_years_of_experience (resume_data : ResumeData) : ℚ :=
  if resume_data.experience = [] then 0
  else
    let years : Nat := (resume_data.experience.map (fun e => entrySpan e.description)).sum
    if years = 0 then ((resume_data.experience.length * 2 : Nat) : ℚ)
    else (years : ℚ)

/-- `ScoringEngine.parse_experience_requirement`: the first integer token
of the requirement text, or 0 when there is none. -/
def parse_experience_requirement (exp_text : String) : ℚ :=
  match firstNumber exp_text.toList with
  | some n => (n : ℚ)
  | none => 0

/-- `ScoringEngine.calculate_experience_score`: when a requirement is
present and both the parsed requirement and the extracted years are
non-zero (Python truthiness), the banded comparison applies; in every
other case the neutral default 50 is returned. -/
def calculate_experience_score (resume_data : ResumeData) (jd_data : JdData) : ℚ :=
  let resume_experience := extract_years_of_experience resume_data
  let required_experience := jd_data.experience_required
  if required_experience ≠ "Not specified" then
    let required_years := parse_experience_requirement required_experience
    if required_years ≠ 0 ∧ resume_experience ≠ 0 then
      if resume_experience ≥ required_years then 100
      else if resume_experience ≥ required_years * (3/4) then 75
      else if resume_experience ≥ required_years * (1/2) then 50
      else 25
    else 50
  else 50

/-! ## `ScoringEngine.calculate_overall_score` -/

/-- Rounding to two decimal places, `round(x, 2)`.  Python rounds the
nearest representable float half-to-even; on the exact rationals of this
model the claims never meet a tie, so nearest-integer rounding of
`100 * x` is the faithful embedding. -/
def round2 (x : ℚ) : ℚ := (round (x * 100) : ℤ) / 100

/-- The analysis dict handed to the aggregator (`ExternalAnalysis` of the
spec): `match_percentage` may be absent; the list-valued keys are read
with `.get(key, [])`, so an absent key and an empty list coincide. -/
structure LlmAnalysis where
  match_percentage : Option ℚ
  matched_skills : List String
  missing_required_skills : List String
  missing_preferred_skills : List String
  strengths : List String
  gaps : List String
  recommendations : List String
  deriving Repr, DecidableEq

/-- The breakdown dict compiled by `calculate_overall_score`. -/
structure Breakdown where
  overall_score : ℚ
  hard_match_score : ℚ
  semantic_score : ℚ
  experience_score : ℚ
  verdict : String
  matched_skills : List String
  missing_required_skills : List String
  missing_preferred_skills : List String
  recommendations : List String
  deriving Repr, DecidableEq

/-- `ScoringEngine.calculate_overall_score`: the weighted average of the
hard-match, semantic and experience scores, the threshold verdict on that
un-rounded average, and the breakdown dict with every score rounded to two
decimals. -/
def calculate_overall_score (cfg : Config) (fuzz : String → String → ℚ)
    (resume_data : ResumeData) (jd_data : JdData) (semantic_score : ℚ)
    (llm_analysis : LlmAnalysis) : ℚ × String × Breakdown :=
  let hard_match_score := calculate_hard_match_score fuzz resume_data jd_data
  let experience_score := calculate_experience_score resume_data jd_data
  let overall_score :=
    hard_match_score * cfg.HARD_MATCH_WEIGHT +
    semantic_score * cfg.SEMANTIC_MATCH_WEIGHT +
    experience_score * cfg.EXPERIENCE_WEIGHT
  let verdict :=
    if overall_score ≥ cfg.HIGH_RELEVANCE_THRESHOLD then "HIGH"
    else if overall_score ≥ cfg.MEDIUM_RELEVANCE_THRESHOLD then "MEDIUM"
    else "LOW"
  (overall_score, verdict,
    { overall_score := round2 overall_score
      hard_match_score := round2 hard_match_score
      semantic_score := round2 semantic_score
      experience_score := round2 experience_score
      verdict := verdict
      matched_skills := llm_analysis.matched_skills
      missing_required_skills := llm_analysis.missing_required_skills
      missing_preferred_skills := llm_analysis.missing_preferred_skills
      recommendations := llm_analysis.recommendations })

/-! ## `LLMHandler.calculate_semantic_similarity` -/

/-- `LLMHandler.calculate_semantic_similarity`: the whole `try` block —
both embedding calls, the numpy cosine similarity over machine reals and
the float conversion — is the external collaborator `service`, giving the
cosine similarity or failing; on success the similarity is scaled to a
percentage, and on any failure the `except` branch returns the constant
0.0. -/
def calculate_semantic_similarity (service : String → String → Option ℚ)
    (resume_text jd_text : String) : ℚ :=
  match service resume_text jd_text with
  | some similarity => similarity * 100
  | none => 0

/-! ## `LLMHandler.analyze_resume_fit` and its fallback parser -/

/-- The sections the fallback parser can be positioned in. -/
inductive Sect where
  | matched_skills
  | missing_required_skills
  | missing_preferred_skills
  | strengths
  | gaps
  | recommendations
  deriving Repr, DecidableEq

/-- `str.strip()`: whitespace removed from both ends. -/
def stripWs (l : List Char) : List Char :=
  ((l.dropWhile Char.isWhitespace).reverse.dropWhile Char.isWhitespace).reverse

/-- `str.strip(chars)`: any of the given characters removed from both
ends (the source strips `'- •'`). -/
def stripChars (cs : List Char) (l : List Char) : List Char :=
  ((l.dropWhile cs.contains).reverse.dropWhile cs.contains).reverse

/-- `str.endswith(':')`. -/
def endsWithColon (l : List Char) : Bool :=
  match l.getLast? with
  | some c => c == ':'
  | none => false

/-- Split on newline characters, `str.split('\n')` (empty pieces kept). -/
def splitLines : List Char → List (List Char)
  | [] => [[]]
  | c :: t =>
    let rest := splitLines t
    if c = '\n' then [] :: rest
    else
      match rest with
      | [] => [[c]]
      | r :: rs => (c :: r) :: rs

/-- Append a parsed line to the list field the parser is positioned in. -/
def appendToSect (s : Sect) (v : String) (r : LlmAnalysis) : LlmAnalysis :=
  match s with
  | .matched_skills => { r with matched_skills := r.matched_skills ++ [v] }
  | .missing_required_skills =>
      { r with missing_required_skills := r.missing_required_skills ++ [v] }
  | .missing_preferred_skills =>
      { r with missing_preferred_skills := r.missing_preferred_skills ++ [v] }
  | .strengths => { r with strengths := r.strengths ++ [v] }
  | .gaps => { r with gaps := r.gaps ++ [v] }
  | .recommendations => { r with recommendations := r.recommendations ++ [v] }

/-- One iteration of the fallback parser's line loop: the stripped line
either updates the match percentage (a line holding `match` and `%`),
switches the current section on a heading keyword, or, inside a section,
is appended (when non-empty and not ending in a colon) with leading and
trailing `-`, space and bullet characters stripped. -/
def processLine (st : Option Sect × LlmAnalysis) (rawLine : List Char) :
    Option Sect × LlmAnalysis :=
  let line := stripWs rawLine
  let low := (line.map Char.toLower)
  if substrIn "match".toList low && substrIn "%".toList line then
    match firstNumber line with
    | some n => (st.1, { st.2 with match_percentage := some (n : ℚ) })
    | none => st
  else if substrIn "matched skills".toList low then (some .matched_skills, st.2)
  else if substrIn "missing required".toList low then
    (some .missing_required_skills, st.2)
  else if substrIn "missing preferred".toList low then
    (some .missing_preferred_skills, st.2)
  else if substrIn "strength".toList low then (some .strengths, st.2)
  else if substrIn "gap".toList low || substrIn "concern".toList low then
    (some .gaps, st.2)
  else if substrIn "recommend".toList low then (some .recommendations, st.2)
  else
    match st.1 with
    | some s =>
      if line ≠ [] ∧ ¬ endsWithColon line then
        (st.1, appendToSect s ⟨stripChars ['-', ' ', '•'] line⟩ st.2)
      else st
    | none => st

/-- `LLMHandler.parse_llm_response`: the line-based fallback parser, a
fold of `processLine` over the response lines starting from the default
result (match percentage 50, every list empty, no current section). -/
def parse_llm_response (response : String) : LlmAnalysis :=
  let init : LlmAnalysis :=
    { match_percentage := some 50, matched_skills := [],
      missing_required_skills := [], missing_preferred_skills := [],
      strengths := [], gaps := [], recommendations := [] }
  ((splitLines response.toList).foldl processLine (none, init)).2

/-- `re.search(r'\{.*\}', response, re.DOTALL)`: the span from the first
opening brace through the last closing brace after it, when both exist. -/
def extractJson (response : List Char) : Option (List Char) :=
  let fromBrace := response.dropWhile (fun c => ¬ c = '{')
  match fromBrace.reverse.dropWhile (fun c => ¬ c = '}') with
  | [] => none
  | c :: t => some (c :: t).reverse

/-- The dict built by the `except` branch of `analyze_resume_fit`: match
percentage 0, no matched skills, the job's full required and preferred
skill lists as missing, and templated gap/recommendation strings. -/
def errorAnalysis (jd_data : JdData) : LlmAnalysis :=
  { match_percentage := some 0
    matched_skills := []
    missing_required_skills := jd_data.required_skills
    missing_preferred_skills := jd_data.preferred_skills
    strengths := []
    gaps := ["Error in analysis"]
    recommendations := ["Please try again"] }

/-- `LLMHandler.analyze_resume_fit` after the prompt is sent: the external
model call is `response` (`none` when `chain.run` raises) and the standard
JSON parser is `jsonParse` (`none` when `json.loads` raises).  A raised
call and a brace-delimited span that fails JSON parsing both land in the
`except` branch; a response without a brace-delimited span goes to the
line-based fallback parser. -/
def analyze_resume_fit (jsonParse : String → Option LlmAnalysis)
    (response : Option String) (jd_data : JdData) : LlmAnalysis :=
  match response with
  | none => errorAnalysis jd_data
  | some resp =>
    match extractJson resp.toList with
    | some span =>
      match jsonParse ⟨span⟩ with
      | some parsed => parsed
      | none => errorAnalysis jd_data
    | none => parse_llm_response resp

/-! ## `ResumeProcessor.process_resume_and_jd` (scoring-relevant part) -/

/-- The scoring-relevant fields of the result dict assembled by
`ResumeProcessor.process_resume_and_jd`. -/
structure ProcessResult where
  overall_score : ℚ
  verdict : String
  breakdown : Breakdown
  deriving Repr

/-- `ResumeProcessor.process_resume_and_jd`, with document parsing and the
two external calls already performed upstream (their outputs are the
inputs here): the result dict stores the un-rounded first component of
`calculate_overall_score` as `overall_score`, next to the breakdown whose
own `overall_score` entry is rounded. -/
def process_resume_and_jd (cfg : Config) (fuzz : String → String → ℚ)
    (resume_data : ResumeData) (jd_data : JdData) (semantic_score : ℚ)
    (llm_analysis : LlmAnalysis) : ProcessResult :=
  let r := calculate_overall_score cfg fuzz resume_data jd_data semantic_score llm_analysis
  { overall_score := r.1, verdict := r.2.1, breakdown := r.2.2 }

/-! ## Spec-side comparison definitions

The spec (§4.3) describes fallback behaviours for the external-signal
adapter; the following definitions follow the spec's words, for
comparison with the source-derived functions above. -/

/-- Split into whitespace-separated tokens, `str.split()` semantics
(runs of whitespace separate, no empty tokens). -/
def splitWsAux : List Char → List Char → List (List Char)
  | [], cur => if cur = [] then [] else [cur.reverse]
  | c :: t, cur =>
    if c.isWhitespace then
      if cur = [] then splitWsAux t [] else cur.reverse :: splitWsAux t []
    else splitWsAux t (c :: cur)

/-- Split into whitespace-separated tokens (body). -/
def splitWsTokens (l : List Char) : List (List Char) := splitWsAux l []

/-- Modelled from the spec: the bag-of-words token set of a text — its
lower-cased whitespace-separated tokens, deduplicated. -/
def specTokenSet (text : String) : List String :=
  ((splitWsTokens (strLower text).toList).map (fun l => (⟨l⟩ : String))).dedup

/-- Modelled from the spec: the Jaccard similarity of the two lower-cased
token sets (intersection over union) scaled to 0–100, the fallback §4.3
prescribes for `semanticSimilarity` when the embedding service fails. -/
def specJaccardScaled (resume_text jd_text : String) : ℚ :=
  let a := specTokenSet resume_text
  let b := specTokenSet jd_text
  let inter := a.filter (fun x => b.contains x)
  let union := (a ++ b).dedup
  if union.length = 0 then 0
  else ((inter.length : ℚ) / (union.length : ℚ)) * 100

/-- Modelled from the spec: the synthesized match percentage of the
"purely local analysis computed by set algebra" that §4.3 prescribes when
the model response cannot be parsed as JSON:
`min(100, 60 + 10*|matched required| + 5*|matched preferred|)` with
matched = intersection of the lower-cased skill sets. -/
def specLocalFallbackMatchPercentage (resume_data : ResumeData)
    (jd_data : JdData) : ℚ :=
  let rs := (resume_data.skills.map strLower).dedup
  let matchedRequired :=
    ((jd_data.required_skills.map strLower).dedup).filter (fun s => rs.contains s)
  let matchedPreferred :=
    ((jd_data.preferred_skills.map strLower).dedup).filter (fun s => rs.contains s)
  min 100 (60 + 10 * (matchedRequired.length : ℚ) + 5 * (matchedPreferred.length : ℚ))

/-! ## Concrete evaluation inputs -/

/-- A fuzzy-similarity collaborator that never fires the 85-point
threshold (every concrete evaluation below matches exactly, so the fuzzy
tier is not consulted). -/
def fuzz0 : String → String → ℚ := fun _ _ => 0

/-- A JSON parser standing for `json.loads` raising on its input. -/
def jsonParseNone : String → Option LlmAnalysis := fun _ => none

/-- A resume with no skills, no experience and empty text. -/
def emptyResume : ResumeData := { skills := [], experience := [], fullText := "" }

/-- A job with no skill lists and no experience requirement. -/
def emptyJd : JdData :=
  { required_skills := [], preferred_skills := [], experience_required := "Not specified" }

/-- An analysis dict carrying `match_percentage = 82`. -/
def analysis82 : LlmAnalysis :=
  { match_percentage := some 82, matched_skills := [], missing_required_skills := [],
    missing_preferred_skills := [], strengths := [], gaps := [], recommendations := [] }

/-- An analysis dict with no `match_percentage`. -/
def analysisNone : LlmAnalysis :=
  { match_percentage := none, matched_skills := [], missing_required_skills := [],
    missing_preferred_skills := [], strengths := [], gaps := [], recommendations := [] }

/-- A resume whose single skill matches `pyJd`'s single required skill
exactly after case normalization. -/
def pyResume : ResumeData := { skills := ["Python"], experience := [], fullText := "" }

/-- A job requiring exactly the skill `python`, with no preferred list. -/
def pyJd : JdData :=
  { required_skills := ["python"], preferred_skills := [], experience_required := "Not specified" }

/-- A resume with one experience entry whose two year tokens coincide, so
its span is 0 although year tokens are present. -/
def resumeEqualYears : ResumeData :=
  { skills := [], experience := [{ description := "Intern 2020 to 2020" }], fullText := "" }

/-- A resume with one experience entry spanning 2018–2023 (five years). -/
def resumeFiveYears : ResumeData :=
  { skills := [], experience := [{ description := "Engineer 2018 - 2023" }], fullText := "" }

/-- A job requiring five years of experience. -/
def jd5y : JdData :=
  { required_skills := [], preferred_skills := [], experience_required := "5 years" }

/-- A configuration whose weights sum to 1 but are not all nonnegative. -/
def cfgNegWeight : Config :=
  { HARD_MATCH_WEIGHT := -1/2, SEMANTIC_MATCH_WEIGHT := 3/2, EXPERIENCE_WEIGHT := 0 }

/-! ## Helper lemmas -/

/-- Every tier credit is nonnegative. -/
theorem skillCredit_nonneg (fuzz : String → String → ℚ) (rs : List String)
    (text skill : String) : 0 ≤ skillCredit fuzz rs text skill := by
  simp only [skillCredit]
  split_ifs <;> norm_num

/-- Every tier credit is at most 1. -/
theorem skillCredit_le_one (fuzz : String → String → ℚ) (rs : List String)
    (text skill : String) : skillCredit fuzz rs text skill ≤ 1 := by
  simp only [skillCredit]
  split_ifs <;> norm_num

/-- A sum of per-element values bounded by 1 is bounded by the length. -/
theorem sum_map_le_length {α : Type} (l : List α) (f : α → ℚ)
    (h : ∀ x ∈ l, f x ≤ 1) : (l.map f).sum ≤ l.length := by
  induction l with
  | nil => simp
  | cons a t ih =>
    simp only [List.map_cons, List.sum_cons, List.length_cons]
    have ha := h a (by simp)
    have ht := ih (fun x hx => h x (by simp [hx]))
    push_cast
    linarith

/-- A sum of nonnegative per-element values is nonnegative. -/
theorem sum_map_nonneg {α : Type} (l : List α) (f : α → ℚ)
    (h : ∀ x ∈ l, 0 ≤ f x) : 0 ≤ (l.map f).sum := by
  induction l with
  | nil => simp
  | cons a t ih =>
    simp only [List.map_cons, List.sum_cons]
    have ha := h a (by simp)
    have ht := ih (fun x hx => h x (by simp [hx]))
    linarith

/-- A sum of per-element values all equal to 1 is the length. -/
theorem sum_map_eq_length {α : Type} (l : List α) (f : α → ℚ)
    (h : ∀ x ∈ l, f x = 1) : (l.map f).sum = l.length := by
  induction l with
  | nil => simp
  | cons a t ih =>
    simp only [List.map_cons, List.sum_cons, List.length_cons]
    rw [h a (by simp), ih (fun x hx => h x (by simp [hx]))]
    push_cast
    ring

/-- The average credit of a non-empty block, scaled by its point budget,
stays between 0 and the budget. -/
theorem block_score_bounds (s : ℚ) (n : ℕ) (hn : 0 < n) (h0 : 0 ≤ s)
    (h1 : s ≤ n) (B : ℚ) (hB : 0 ≤ B) : 0 ≤ s / n * B ∧ s / n * B ≤ B := by
  have hn' : (0:ℚ) < n := by exact_mod_cast hn
  constructor
  · exact mul_nonneg (div_nonneg h0 hn'.le) hB
  · have hle : s / n ≤ 1 := (div_le_one hn').mpr h1
    calc s / n * B ≤ 1 * B := by
          exact mul_le_mul_of_nonneg_right hle hB
      _ = B := one_mul B

/-- The hard-match score always lies in [0, 100]. -/
theorem hard_match_bounds (fuzz : String → String → ℚ)
    (resume_data : ResumeData) (jd_data : JdData) :
    0 ≤ calculate_hard_match_score fuzz resume_data jd_data ∧
      calculate_hard_match_score fuzz resume_data jd_data ≤ 100 := by
  simp only [calculate_hard_match_score]
  set rs := resume_data.skills.map strLower with hrs
  set rt := strLower resume_data.fullText with hrt
  have hreq : ∀ l : List String, l ≠ [] →
      0 ≤ (l.map (skillCredit fuzz rs rt)).sum / l.length ∧
        (l.map (skillCredit fuzz rs rt)).sum / l.length ≤ 1 := by
    intro l hl
    have hn : 0 < l.length := List.length_pos.mpr hl
    have hn' : (0:ℚ) < l.length := by exact_mod_cast hn
    have h0 := sum_map_nonneg l (skillCredit fuzz rs rt)
      (fun x _ => skillCredit_nonneg fuzz rs rt x)
    have h1 := sum_map_le_length l (skillCredit fuzz rs rt)
      (fun x _ => skillCredit_le_one fuzz rs rt x)
    exact ⟨div_nonneg h0 hn'.le, (div_le_one hn').mpr h1⟩
  by_cases h1 : jd_data.required_skills = [] <;>
    by_cases h2 : jd_data.preferred_skills = []
  · norm_num [h1, h2]
  · have := hreq jd_data.preferred_skills h2
    norm_num [h1, h2]
    constructor
    · nlinarith [this.1, this.2]
    · nlinarith [this.1, this.2]
  · have := hreq jd_data.required_skills h1
    norm_num [h1, h2]
    constructor
    · nlinarith [this.1, this.2]
    · nlinarith [this.1, this.2]
  · have ha := hreq jd_data.required_skills h1
    have hb := hreq jd_data.preferred_skills h2
    norm_num [h1, h2]
    constructor
    · nlinarith [ha.1, ha.2, hb.1, hb.2]
    · nlinarith [ha.1, ha.2, hb.1, hb.2]

/-- The experience score always lies in [0, 100]. -/
theorem experience_score_bounds (resume_data : ResumeData) (jd_data : JdData) :
    0 ≤ calculate_experience_score resume_data jd_data ∧
      calculate_experience_score resume_data jd_data ≤ 100 := by
  simp only [calculate_experience_score]
  split_ifs <;> norm_num

/-! ## Claim theorems -/

/-- C1 (amended): `calculate_overall_score` never reads
`analysis.match_percentage` — its whole result is unchanged under any
replacement of that field — and its overall score always equals the
weighted combination of the hard-match, semantic and experience scores;
no override by the external match percentage exists. -/
theorem calculate_overall_score_ignores_match_percentage
    (cfg : Config) (fuzz : String → String → ℚ) (resume_data : ResumeData)
    (jd_data : JdData) (semantic_score : ℚ) (llm_analysis : LlmAnalysis)
    (p : Option ℚ) :
    calculate_overall_score cfg fuzz resume_data jd_data semantic_score
        { llm_analysis with match_percentage := p } =
      calculate_overall_score cfg fuzz resume_data jd_data semantic_score
        llm_analysis ∧
    (calculate_overall_score cfg fuzz resume_data jd_data semantic_score
        llm_analysis).1 =
      calculate_hard_match_score fuzz resume_data jd_data * cfg.HARD_MATCH_WEIGHT +
        semantic_score * cfg.SEMANTIC_MATCH_WEIGHT +
        calculate_experience_score resume_data jd_data * cfg.EXPERIENCE_WEIGHT :=
  ⟨rfl, rfl⟩

/-- C1 (counterexample): with `match_percentage = 82` supplied, empty
resume/job data and semantic score 0, the overall score is the weighted
combination 30, not 82. -/
theorem match_percentage_override_refuted :
    analysis82.match_percentage = some 82 ∧
    (calculate_overall_score {} fuzz0 emptyResume emptyJd 0 analysis82).1 = 30 ∧
    ((30 : ℚ) ≠ 82) := by
  refine ⟨rfl, ?_, by norm_num⟩
  show calculate_hard_match_score fuzz0 emptyResume emptyJd * (2/5) +
    0 * (2/5) + calculate_experience_score emptyResume emptyJd * (1/5) = 30
  have hh : calculate_hard_match_score fuzz0 emptyResume emptyJd = 50 := by
    simp +decide [calculate_hard_match_score, emptyResume, emptyJd]
  have he : calculate_experience_score emptyResume emptyJd = 50 := by
    simp +decide [calculate_experience_score, emptyJd]
  rw [hh, he]
  norm_num

/-- C4: when the external model call raises (`response = none`),
`analyze_resume_fit` returns — as a total function, without raising —
the conservative dict: `missing_required_skills` is the job's full
required-skill list, and every other field holds its fixed safe default
(match percentage 0, empty matched skills and strengths, the full
preferred list as missing, templated gap and recommendation strings). -/
theorem analyze_fit_total_failure_defaults
    (jsonParse : String → Option LlmAnalysis) (jd_data : JdData) :
    analyze_resume_fit jsonParse none jd_data = errorAnalysis jd_data ∧
    (analyze_resume_fit jsonParse none jd_data).missing_required_skills =
      jd_data.required_skills ∧
    (analyze_resume_fit jsonParse none jd_data).match_percentage = some 0 ∧
    (analyze_resume_fit jsonParse none jd_data).matched_skills = [] ∧
    (analyze_resume_fit jsonParse none jd_data).missing_preferred_skills =
      jd_data.preferred_skills ∧
    (analyze_resume_fit jsonParse none jd_data).strengths = [] ∧
    (analyze_resume_fit jsonParse none jd_data).gaps = ["Error in analysis"] ∧
    (analyze_resume_fit jsonParse none jd_data).recommendations =
      ["Please try again"] :=
  ⟨rfl, rfl, rfl, rfl, rfl, rfl, rfl, rfl⟩

/-- C7: the verdict is computed from the un-rounded overall score —
`HIGH` at or above the high threshold, `MEDIUM` at or above the medium
threshold, `LOW` otherwise — the breakdown's verdict is that same
verdict while its `overall_score` entry is the rounded value, and the
default thresholds are 75 and 50; rounding therefore never affects
verdict assignment. -/
theorem verdict_thresholds_pre_rounding
    (cfg : Config) (fuzz : String → String → ℚ) (resume_data : ResumeData)
    (jd_data : JdData) (semantic_score : ℚ) (llm_analysis : LlmAnalysis) :
    (calculate_overall_score cfg fuzz resume_data jd_data semantic_score
        llm_analysis).2.1 =
      (if (calculate_overall_score cfg fuzz resume_data jd_data semantic_score
            llm_analysis).1 ≥ cfg.HIGH_RELEVANCE_THRESHOLD then "HIGH"
        else if (calculate_overall_score cfg fuzz resume_data jd_data
            semantic_score llm_analysis).1 ≥ cfg.MEDIUM_RELEVANCE_THRESHOLD
          then "MEDIUM"
        else "LOW") ∧
    (calculate_overall_score cfg fuzz resume_data jd_data semantic_score
        llm_analysis).2.2.verdict =
      (calculate_overall_score cfg fuzz resume_data jd_data semantic_score
        llm_analysis).2.1 ∧
    (calculate_overall_score cfg fuzz resume_data jd_data semantic_score
        llm_analysis).2.2.overall_score =
      round2 (calculate_overall_score cfg fuzz resume_data jd_data
        semantic_score llm_analysis).1 ∧
    ({} : Config).HIGH_RELEVANCE_THRESHOLD = 75 ∧
    ({} : Config).MEDIUM_RELEVANCE_THRESHOLD = 50 :=
  ⟨rfl, rfl, rfl, rfl, rfl⟩

/-- C3 (amended): `calculate_semantic_similarity` is total — it never
propagates a failure of the embedding service — but on any failure it
returns the fixed constant 0, not a Jaccard fallback; on success it
scales the service's cosine similarity to a percentage. -/
theorem semantic_similarity_failure_constant
    (service : String → String → Option ℚ) (resume_text jd_text : String) :
    (service resume_text jd_text = none →
      calculate_semantic_similarity service resume_text jd_text = 0) ∧
    (∀ q, service resume_text jd_text = some q →
      calculate_semantic_similarity service resume_text jd_text = q * 100) := by
  constructor
  · intro h
    simp [calculate_semantic_similarity, h]
  · intro q h
    simp [calculate_semantic_similarity, h]

/-- C3 (witness): the failure branch at concrete texts returns 0. -/
theorem semantic_similarity_failure_constant_witness :
    calculate_semantic_similarity (fun _ _ => none) "python" "python" = 0 :=
  (semantic_similarity_failure_constant (fun _ _ => none) "python" "python").1 rfl

/-- C3 (counterexample): on identical texts `"python"` the failed-service
result is 0 while the spec's scaled Jaccard fallback is 100, so the code
does not fall back to Jaccard similarity. -/
theorem semantic_jaccard_fallback_refuted :
    calculate_semantic_similarity (fun _ _ => none) "python" "python" = 0 ∧
    specJaccardScaled "python" "python" = 100 ∧ ((0 : ℚ) ≠ 100) := by
  refine ⟨rfl, ?_, by norm_num⟩
  have h : specTokenSet "python" = ["python"] := by decide
  simp +decide [specJaccardScaled, h]

/-- C10: the pipeline stores the un-rounded overall score — the first
component of `calculate_overall_score` — as `overall_score`, while the
breakdown's `overall_score` entry is its 2-decimal rounding; at semantic
score 0.333 the two differ (30.1332 stored, 30.13 displayed). -/
theorem unrounded_overall_stored :
    (∀ (cfg : Config) (fuzz : String → String → ℚ) (resume_data : ResumeData)
        (jd_data : JdData) (semantic_score : ℚ) (llm_analysis : LlmAnalysis),
      (process_resume_and_jd cfg fuzz resume_data jd_data semantic_score
          llm_analysis).overall_score =
        (calculate_overall_score cfg fuzz resume_data jd_data semantic_score
          llm_analysis).1 ∧
      (process_resume_and_jd cfg fuzz resume_data jd_data semantic_score
          llm_analysis).breakdown.overall_score =
        round2 (process_resume_and_jd cfg fuzz resume_data jd_data
          semantic_score llm_analysis).overall_score) ∧
    (process_resume_and_jd {} fuzz0 emptyResume emptyJd (333/1000)
        analysisNone).overall_score = 75333/2500 ∧
    (process_resume_and_jd {} fuzz0 emptyResume emptyJd (333/1000)
        analysisNone).breakdown.overall_score = 3013/100 ∧
    ((75333/2500 : ℚ) ≠ 3013/100) := by
  have hh : calculate_hard_match_score fuzz0 emptyResume emptyJd = 50 := by
    simp +decide [calculate_hard_match_score, emptyResume, emptyJd]
  have he : calculate_experience_score emptyResume emptyJd = 50 := by
    simp +decide [calculate_experience_score, emptyJd]
  have hov : (process_resume_and_jd {} fuzz0 emptyResume emptyJd (333/1000)
      analysisNone).overall_score = 75333/2500 := by
    show calculate_hard_match_score fuzz0 emptyResume emptyJd * (2/5) +
      (333/1000) * (2/5) + calculate_experience_score emptyResume emptyJd * (1/5) =
      75333/2500
    rw [hh, he]
    norm_num
  refine ⟨fun _ _ _ _ _ _ => ⟨rfl, rfl⟩, hov, ?_, by norm_num⟩
  show round2 ((process_resume_and_jd {} fuzz0 emptyResume emptyJd (333/1000)
      analysisNone).overall_score) = 3013/100
  rw [hov, round2, round_eq]
  have hfloor : ⌊(75333 : ℚ)/2500 * 100 + 1/2⌋ = 3013 := by
    rw [Int.floor_eq_iff]
    constructor <;> norm_num
  rw [hfloor]
  norm_num

/-- C2 (amended): when every listed skill has an exact case-insensitive
match among the resume skills, a job with required skills only scores 60
and a job with preferred skills only scores 40 — the single present list
is worth its fixed sub-budget, not the full 100. -/
theorem single_list_hard_match_subbudget (fuzz : String → String → ℚ)
    (resume_data : ResumeData) (jd_data : JdData)
    (hreq : ∀ s ∈ jd_data.required_skills,
      (resume_data.skills.map strLower).contains (strLower s) = true)
    (hpref : ∀ s ∈ jd_data.preferred_skills,
      (resume_data.skills.map strLower).contains (strLower s) = true) :
    (jd_data.preferred_skills = [] → jd_data.required_skills ≠ [] →
      calculate_hard_match_score fuzz resume_data jd_data = 60) ∧
    (jd_data.required_skills = [] → jd_data.preferred_skills ≠ [] →
      calculate_hard_match_score fuzz resume_data jd_data = 40) := by
  have hcred : ∀ (l : List String),
      (∀ s ∈ l, (resume_data.skills.map strLower).contains (strLower s) = true) →
      ∀ s ∈ l, skillCredit fuzz (resume_data.skills.map strLower)
        (strLower resume_data.fullText) s = 1 := by
    intro l hl s hs
    simp only [skillCredit]
    rw [if_pos (hl s hs)]
  constructor
  · intro hp hr
    have hlen : (0:ℚ) < jd_data.required_skills.length := by
      exact_mod_cast List.length_pos.mpr hr
    have hsum := sum_map_eq_length jd_data.required_skills _
      (hcred jd_data.required_skills hreq)
    simp only [calculate_hard_match_score, hp, hr]
    norm_num
    rw [hsum, div_self (ne_of_gt hlen)]
    norm_num
    simp [hr]
  · intro hr hp
    have hlen : (0:ℚ) < jd_data.preferred_skills.length := by
      exact_mod_cast List.length_pos.mpr hp
    have hsum := sum_map_eq_length jd_data.preferred_skills _
      (hcred jd_data.preferred_skills hpref)
    simp only [calculate_hard_match_score, hp, hr]
    norm_num
    rw [hsum, div_self (ne_of_gt hlen)]
    norm_num
    simp [hp]

/-- C2 (witness): the required-only instance with one exactly matched
skill evaluates to 60 through the theorem. -/
theorem single_list_hard_match_subbudget_witness :
    calculate_hard_match_score fuzz0 pyResume pyJd = 60 :=
  (single_list_hard_match_subbudget fuzz0 pyResume pyJd
    (by decide) (by decide)).1 (by decide) (by decide)

/-- C2 (counterexample): the job requires exactly `python`, has no
preferred list, and the resume lists the skill exactly (up to case), yet
the hard-match score is 60, not 100. -/
theorem single_list_full100_refuted :
    pyJd.required_skills = ["python"] ∧ pyJd.preferred_skills = [] ∧
    (pyResume.skills.map strLower).contains (strLower "python") = true ∧
    calculate_hard_match_score fuzz0 pyResume pyJd = 60 ∧ ((60 : ℚ) ≠ 100) := by
  refine ⟨rfl, rfl, by decide, ?_, by norm_num⟩
  simp +decide [calculate_hard_match_score, skillCredit, pyResume, pyJd]

/-- C5 (amended): for a non-empty experience record, the estimate is the
sum over entries of the absolute span between the first and last
`20xx` token (entries with fewer than two tokens contributing 0), and the
fallback `entryCount * 2` is used exactly when that span sum is 0 — which
also happens when year tokens are present but span nothing; an empty
record yields 0. -/
theorem years_fallback_on_zero_span (resume_data : ResumeData) :
    (resume_data.experience = [] → extract_years_of_experience resume_data = 0) ∧
    (resume_data.experience ≠ [] →
      extract_years_of_experience resume_data =
        (if (resume_data.experience.map (fun e =>
              let ys := findYears e.description.toList
              if 2 ≤ ys.length then
                ((ys.getLastD 0 : Int) - (ys.headD 0 : Int)).natAbs
              else 0)).sum = 0
          then ((resume_data.experience.length * 2 : Nat) : ℚ)
          else ((resume_data.experience.map (fun e =>
              let ys := findYears e.description.toList
              if 2 ≤ ys.length then
                ((ys.getLastD 0 : Int) - (ys.headD 0 : Int)).natAbs
              else 0)).sum : ℚ))) := by
  have hspan : ∀ d : String,
      (let ys := findYears d.toList
        if 2 ≤ ys.length then
          ((ys.getLastD 0 : Int) - (ys.headD 0 : Int)).natAbs
        else 0) = entrySpan d := by
    intro d
    simp only [entrySpan]
    match findYears d.toList with
    | [] => simp
    | [a] => simp
    | a :: b :: t =>
      simp only [List.length_cons, List.headD_cons]
      rw [if_pos (by omega), List.getLastD_cons, List.getLastD_cons,
        List.getLastD_cons]
  constructor
  · intro h
    simp [extract_years_of_experience, h]
  · intro h
    simp only [hspan]
    simp [extract_years_of_experience, h]

/-- C5 (witness): a record with one entry spanning 2018–2023 evaluates
through the theorem to the span sum 5, not the fallback. -/
theorem years_fallback_on_zero_span_witness :
    extract_years_of_experience resumeFiveYears = 5 := by
  have h := (years_fallback_on_zero_span resumeFiveYears).2 (by decide)
  rw [h]
  have hs : (resumeFiveYears.experience.map (fun e =>
      let ys := findYears e.description.toList
      if 2 ≤ ys.length then
        ((ys.getLastD 0 : Int) - (ys.headD 0 : Int)).natAbs
      else 0)).sum = 5 := by decide
  rw [hs]
  norm_num

/-- C5 (counterexample): an entry holding the year tokens `2020` and
`2020` has span sum 0, yet the estimate is the fallback `1 * 2 = 2`, not
the sum 0 — the fallback fires even though year tokens are present. -/
theorem years_fallback_tokens_refuted :
    findYears "Intern 2020 to 2020".toList = [2020, 2020] ∧
    (resumeEqualYears.experience.map (fun e => entrySpan e.description)).sum = 0 ∧
    extract_years_of_experience resumeEqualYears = 2 ∧ ((2 : ℚ) ≠ 0) := by
  refine ⟨by decide, by decide, ?_, by norm_num⟩
  simp +decide [extract_years_of_experience, resumeEqualYears]

/-- C6 (amended): when the model response holds no brace-delimited span,
`analyze_resume_fit` falls back to the line-based heuristic
`parse_llm_response`; when a span exists but JSON parsing raises, the
`except` branch returns the conservative error dict — no set-algebra
local analysis is computed on either path. -/
theorem json_failure_fallback_paths (jsonParse : String → Option LlmAnalysis)
    (response : String) (jd_data : JdData) :
    (extractJson response.toList = none →
      analyze_resume_fit jsonParse (some response) jd_data =
        parse_llm_response response) ∧
    (∀ span, extractJson response.toList = some span →
      jsonParse ⟨span⟩ = none →
      analyze_resume_fit jsonParse (some response) jd_data =
        errorAnalysis jd_data) := by
  constructor
  · intro h
    have h' : extractJson response.data = none := h
    simp [analyze_resume_fit, h']
  · intro span h hp
    have h' : extractJson response.data = some span := h
    simp [analyze_resume_fit, h', hp]

/-- C6 (witness): a brace-free response routes through the theorem to the
line-based fallback parser. -/
theorem json_failure_fallback_paths_witness :
    analyze_resume_fit jsonParseNone (some "match: 40%") pyJd =
      parse_llm_response "match: 40%" :=
  (json_failure_fallback_paths jsonParseNone "match: 40%" pyJd).1 (by decide)

/-- C6 (counterexample): on the unparseable response `"match: 40%"` with
a resume matching the single required skill, the computed match
percentage is the line-parsed 40, while the spec's set-algebra formula
gives `min(100, 60 + 10·1 + 5·0) = 70`. -/
theorem local_set_algebra_fallback_refuted :
    (analyze_resume_fit jsonParseNone (some "match: 40%") pyJd).match_percentage =
      some 40 ∧
    specLocalFallbackMatchPercentage pyResume pyJd = 70 ∧
    (some (40 : ℚ) ≠ some (70 : ℚ)) := by
  refine ⟨?_, ?_, by norm_num⟩
  · have h : extractJson "match: 40%".toList = none := by decide
    rw [(json_failure_fallback_paths jsonParseNone "match: 40%" pyJd).1 h]
    decide
  · simp +decide [specLocalFallbackMatchPercentage, pyResume, pyJd]
    norm_num [min_def]

/-- C8: with a stated requirement whose parsed years and the extracted
candidate years are both positive, the experience score is banded —
100 at or above the requirement, 75 at or above three quarters of it,
50 at or above half, 25 below — and with the requirement unspecified,
unparseable, or the candidate years zero, it is the neutral 50. -/
theorem experience_score_bands (resume_data : ResumeData) (jd_data : JdData) :
    (jd_data.experience_required ≠ "Not specified" →
      0 < parse_experience_requirement jd_data.experience_required →
      0 < extract_years_of_experience resume_data →
      calculate_experience_score resume_data jd_data =
        (if extract_years_of_experience resume_data ≥
            parse_experience_requirement jd_data.experience_required then 100
          else if extract_years_of_experience resume_data ≥
            parse_experience_requirement jd_data.experience_required * (3/4)
            then 75
          else if extract_years_of_experience resume_data ≥
            parse_experience_requirement jd_data.experience_required * (1/2)
            then 50
          else 25)) ∧
    ((jd_data.experience_required = "Not specified" ∨
        parse_experience_requirement jd_data.experience_required = 0 ∨
        extract_years_of_experience resume_data = 0) →
      calculate_experience_score resume_data jd_data = 50) := by
  constructor
  · intro h1 h2 h3
    simp only [calculate_experience_score]
    rw [if_pos h1, if_pos ⟨h2.ne', h3.ne'⟩]
  · intro h
    rcases h with h | h | h <;> simp [calculate_experience_score, h]

/-- C8 (witness): requirement `"5 years"` against the 2018–2023 record
gives 5 required and 5 extracted years, hence the 100 band. -/
theorem experience_score_bands_witness :
    calculate_experience_score resumeFiveYears jd5y = 100 := by
  have hp : parse_experience_requirement jd5y.experience_required = 5 := by
    simp +decide [parse_experience_requirement, jd5y]
  have hx : extract_years_of_experience resumeFiveYears = 5 := by
    simp +decide [extract_years_of_experience, resumeFiveYears]
  have h := (experience_score_bands resumeFiveYears jd5y).1 (by decide)
    (by rw [hp]; norm_num) (by rw [hx]; norm_num)
  rw [h, hp, hx, if_pos (by norm_num)]

/-- C9 (amended): with nonnegative weights summing to 1 and the semantic
score in [0, 100], the weighted-average overall score lies in [0, 100]
(the hard-match and experience components are themselves always in
[0, 100]). -/
theorem weighted_overall_bounded (cfg : Config) (fuzz : String → String → ℚ)
    (resume_data : ResumeData) (jd_data : JdData) (semantic_score : ℚ)
    (llm_analysis : LlmAnalysis)
    (hw1 : 0 ≤ cfg.HARD_MATCH_WEIGHT) (hw2 : 0 ≤ cfg.SEMANTIC_MATCH_WEIGHT)
    (hw3 : 0 ≤ cfg.EXPERIENCE_WEIGHT)
    (hsum : cfg.HARD_MATCH_WEIGHT + cfg.SEMANTIC_MATCH_WEIGHT +
      cfg.EXPERIENCE_WEIGHT = 1)
    (hs0 : 0 ≤ semantic_score) (hs1 : semantic_score ≤ 100) :
    0 ≤ (calculate_overall_score cfg fuzz resume_data jd_data semantic_score
        llm_analysis).1 ∧
    (calculate_overall_score cfg fuzz resume_data jd_data semantic_score
        llm_analysis).1 ≤ 100 := by
  have hh := hard_match_bounds fuzz resume_data jd_data
  have he := experience_score_bounds resume_data jd_data
  have hval : (calculate_overall_score cfg fuzz resume_data jd_data
      semantic_score llm_analysis).1 =
      calculate_hard_match_score fuzz resume_data jd_data * cfg.HARD_MATCH_WEIGHT +
        semantic_score * cfg.SEMANTIC_MATCH_WEIGHT +
        calculate_experience_score resume_data jd_data * cfg.EXPERIENCE_WEIGHT := rfl
  rw [hval]
  constructor
  · exact add_nonneg (add_nonneg (mul_nonneg hh.1 hw1) (mul_nonneg hs0 hw2))
      (mul_nonneg he.1 hw3)
  · have b1 := mul_le_mul_of_nonneg_right hh.2 hw1
    have b2 := mul_le_mul_of_nonneg_right hs1 hw2
    have b3 := mul_le_mul_of_nonneg_right he.2 hw3
    linarith

/-- C9 (witness): with the default weights, empty data and semantic
score 0 the overall score lies in [0, 100] through the theorem. -/
theorem weighted_overall_bounded_witness :
    0 ≤ (calculate_overall_score {} fuzz0 emptyResume emptyJd 0 analysisNone).1 ∧
    (calculate_overall_score {} fuzz0 emptyResume emptyJd 0 analysisNone).1 ≤ 100 :=
  weighted_overall_bounded {} fuzz0 emptyResume emptyJd 0 analysisNone
    (by norm_num) (by norm_num) (by norm_num) (by norm_num)
    (by norm_num) (by norm_num)

/-- C9 (counterexample): the weight tuple (−1/2, 3/2, 0) sums to 1 and
every component score is in [0, 100] (hard 50, semantic 100,
experience 50), yet the weighted overall score is 125, outside [0, 100] —
the claimed bound needs nonnegative weights. -/
theorem weighted_overall_bound_refuted :
    cfgNegWeight.HARD_MATCH_WEIGHT + cfgNegWeight.SEMANTIC_MATCH_WEIGHT +
        cfgNegWeight.EXPERIENCE_WEIGHT = 1 ∧
    calculate_hard_match_score fuzz0 emptyResume emptyJd = 50 ∧
    calculate_experience_score emptyResume emptyJd = 50 ∧
    (calculate_overall_score cfgNegWeight fuzz0 emptyResume emptyJd 100
        analysisNone).1 = 125 ∧
    ¬((calculate_overall_score cfgNegWeight fuzz0 emptyResume emptyJd 100
        analysisNone).1 ≤ 100) := by
  have hh : calculate_hard_match_score fuzz0 emptyResume emptyJd = 50 := by
    simp +decide [calculate_hard_match_score, emptyResume, emptyJd]
  have he : calculate_experience_score emptyResume emptyJd = 50 := by
    simp +decide [calculate_experience_score, emptyJd]
  have hov : (calculate_overall_score cfgNegWeight fuzz0 emptyResume emptyJd 100
      analysisNone).1 = 125 := by
    show calculate_hard_match_score fuzz0 emptyResume emptyJd *
        cfgNegWeight.HARD_MATCH_WEIGHT +
      100 * cfgNegWeight.SEMANTIC_MATCH_WEIGHT +
      calculate_experience_score emptyResume emptyJd *
        cfgNegWeight.EXPERIENCE_WEIGHT = 125
    rw [hh, he]
    norm_num [cfgNegWeight]
  refine ⟨by norm_num [cfgNegWeight], hh, he, hov, ?_⟩
  rw [hov]
  norm_num

end ResumeRelevance
